import Mathlib

/-!
Shallow embedding of the build-pipeline status controller and the Argo
resource handlers of the `choreo` repository, together with proofs about
the behaviour its specification describes.

Sources embedded:
* `internal/controller/build/controller_conditions.go` — condition types,
  reasons, `markStepAsSucceeded`, `markStepAsFailed`,
  `markWorkflowCompleted`, `getImageNameFromWorkflow`,
  `NewWorkflowInitializedCondition` and the other condition constructors.
* the Argo `serviceAccountHandler` / `roleBindingHandler`
  (`GetCurrentState`, `Update`, `shouldUpdate`, `makeServiceAccount`,
  `makeRoleBinding`).
* `meta.SetStatusCondition` / `meta.FindStatusCondition` from
  `k8s.io/apimachinery/pkg/api/meta`, the upsert primitive the controller
  calls; embedded from the apimachinery implementation, with wall-clock
  time passed explicitly as a `Nat` parameter.

Go maps from string to string are modelled as association lists, Go `nil`
pointers as `Option`, and a Go panic (nil-pointer dereference) as a `none`
result propagated through `Option`.
-/

namespace Choreo

/-- `metav1.ConditionStatus`: the closed set True / False / Unknown. -/
inductive ConditionStatus where
  | conditionTrue
  | conditionFalse
  | conditionUnknown
deriving DecidableEq, Repr

/-- `metav1.Condition`. `LastTransitionTime` is modelled as a `Nat`
timestamp, with `0` playing the role of the zero time
(`Time.IsZero`). The Go field `Type` is `type_` here. -/
structure Condition where
  type_ : String
  status : ConditionStatus
  reason : String
  message : String
  observedGeneration : Int
  lastTransitionTime : Nat
deriving DecidableEq, Repr

/-- `build.Status.ImageStatus`. -/
structure ImageStatus where
  image : String
deriving DecidableEq, Repr

/-- `build.Status`: the conditions list plus the image status. -/
structure BuildStatus where
  conditions : List Condition
  imageStatus : ImageStatus
deriving DecidableEq, Repr

/-- `choreov1.Build`: generation counter plus status record. -/
structure Build where
  generation : Int
  status : BuildStatus
deriving DecidableEq, Repr

/-! ### Condition type and reason constants (`controller_conditions.go`) -/

def ConditionInitialized : String := "Initialized"
def ConditionCloneSucceeded : String := "CloneSucceeded"
def ConditionBuildSucceeded : String := "BuildSucceeded"
def ConditionPushSucceeded : String := "PushSucceeded"
def ConditionCompleted : String := "Completed"
def ConditionDeployableArtifactCreated : String := "DeployableArtifactCreated"
def ConditionDeploymentApplied : String := "DeploymentApplied"

def ReasonWorkflowCreatedSuccessfully : String := "WorkflowCreated"
def ReasonCloneSucceeded : String := "CloneSourceCodeSucceeded"
def ReasonCloneFailed : String := "CloneSourceCodeFailed"
def ReasonBuildSucceeded : String := "BuildImageSucceeded"
def ReasonBuildFailed : String := "BuildImageFailed"
def ReasonPushSucceeded : String := "PushImageSucceeded"
def ReasonPushFailed : String := "PushImageFailed"
def ReasonWorkflowCompleted : String := "BuildCompleted"
def ReasonWorkflowFailed : String := "BuildFailed"
def ReasonArtifactCreatedSuccessfully : String := "ArtifactCreationSuccessful"
def ReasonAutoDeploymentFailed : String := "DeploymentFailed"
def ReasonAutoDeploymentApplied : String := "DeploymentAppliedSuccessfully"

/-! ### `meta.FindStatusCondition` / `meta.SetStatusCondition`
(k8s.io/apimachinery/pkg/api/meta) -/

/-- `meta.FindStatusCondition`: the first condition with the given type. -/
def findStatusCondition : List Condition → String → Option Condition
  | [], _ => none
  | c :: rest, ty => if c.type_ = ty then some c else findStatusCondition rest ty

/-- The condition appended by `meta.SetStatusCondition` when no condition of
the type exists: the new condition, with `LastTransitionTime` defaulted to
`now` when it is the zero time. -/
def resolveNewCondition (nc : Condition) (now : Nat) : Condition :=
  if nc.lastTransitionTime = 0 then { nc with lastTransitionTime := now } else nc

/-- The in-place mutation `meta.SetStatusCondition` performs on an existing
condition of the same type: status, reason, message and observedGeneration
are overwritten; `LastTransitionTime` is refreshed only when the status
value actually changes. -/
def updateExistingCondition (existing nc : Condition) (now : Nat) : Condition :=
  { existing with
    status := nc.status
    lastTransitionTime :=
      if existing.status = nc.status then existing.lastTransitionTime
      else if nc.lastTransitionTime ≠ 0 then nc.lastTransitionTime else now
    reason := nc.reason
    message := nc.message
    observedGeneration := nc.observedGeneration }

/-- `meta.SetStatusCondition`: upsert by type. The Go code finds the first
condition with the new condition's type and mutates it in place, or appends
the new condition when none exists; this recursion does exactly that. -/
def setStatusCondition (conditions : List Condition) (nc : Condition) (now : Nat) :
    List Condition :=
  match conditions with
  | [] => [resolveNewCondition nc now]
  | c :: rest =>
    if c.type_ = nc.type_ then updateExistingCondition c nc now :: rest
    else c :: setStatusCondition rest nc now

/-- The condition that `setStatusCondition` stores for the new condition's
type: the resolved fresh condition when the type was absent, the updated
existing condition otherwise. -/
def setResult (conditions : List Condition) (nc : Condition) (now : Nat) : Condition :=
  match findStatusCondition conditions nc.type_ with
  | none => resolveNewCondition nc now
  | some existing => updateExistingCondition existing nc now

/-- The multiset of stored condition types. -/
def typesOf (L : List Condition) : List String := L.map (fun c => c.type_)

/-! ### Condition constructors -/

/-- Modelled from the spec: `controller.NewCondition`
(`internal/controller`, not under `src/`) builds a Condition record
`{type, status, reason, message, observedGeneration, lastTransitionTime}`
with `observedGeneration` pinned to the supplied generation and the
transition timestamp taken at construction time (§3 of the spec); the
current time is passed explicitly. -/
def NewCondition (ty : String) (st : ConditionStatus) (reason message : String)
    (generation : Int) (now : Nat) : Condition :=
  { type_ := ty, status := st, reason := reason, message := message,
    observedGeneration := generation, lastTransitionTime := now }

/-- `NewWorkflowInitializedCondition`. -/
def NewWorkflowInitializedCondition (generation : Int) (now : Nat) : Condition :=
  NewCondition ConditionInitialized .conditionTrue ReasonWorkflowCreatedSuccessfully
    "Workflow was created in the cluster." generation now

/-- `NewDeployableArtifactCreatedCondition`. -/
def NewDeployableArtifactCreatedCondition (generation : Int) (now : Nat) : Condition :=
  NewCondition ConditionDeployableArtifactCreated .conditionTrue
    ReasonArtifactCreatedSuccessfully
    "Successfully created a deployable artifact for the build." generation now

/-- `NewAutoDeploymentFailedCondition`. -/
def NewAutoDeploymentFailedCondition (generation : Int) (now : Nat) : Condition :=
  NewCondition ConditionDeploymentApplied .conditionFalse ReasonAutoDeploymentFailed
    "Deployment configuration failed." generation now

/-- `NewAutoDeploymentSuccessfulCondition`. -/
def NewAutoDeploymentSuccessfulCondition (generation : Int) (now : Nat) : Condition :=
  NewCondition ConditionDeploymentApplied .conditionTrue ReasonAutoDeploymentApplied
    "Successfully configured the deployment." generation now

/-- `meta.SetStatusCondition(&build.Status.Conditions, c)`, lifted to the
build record. -/
def applyCondition (b : Build) (c : Condition) (now : Nat) : Build :=
  { b with status := { b.status with
      conditions := setStatusCondition b.status.conditions c now } }

/-! ### The pipeline status controller (`controller_conditions.go`) -/

/-- The `successDescriptors` map of `markStepAsSucceeded`: reason and
message per step condition type. A Go map lookup at a missing key yields
the zero value, hence the `("", "")` default. -/
def successDescriptor (ty : String) : String × String :=
  if ty = ConditionCloneSucceeded then
    (ReasonCloneSucceeded, "Source code cloning was successful.")
  else if ty = ConditionBuildSucceeded then
    (ReasonBuildSucceeded, "Building the source code was successful.")
  else if ty = ConditionPushSucceeded then
    (ReasonPushSucceeded, "Pushing the built image to the registry was successful.")
  else ("", "")

/-- The `failureDescriptors` map of `markStepAsFailed`. -/
def failureDescriptor (ty : String) : String × String :=
  if ty = ConditionCloneSucceeded then
    (ReasonCloneFailed, "Source code cloning failed.")
  else if ty = ConditionBuildSucceeded then
    (ReasonBuildFailed, "Building the source code failed.")
  else if ty = ConditionPushSucceeded then
    (ReasonPushFailed, "Pushing the built image to the registry failed.")
  else ("", "")

/-- `Reconciler.markStepAsSucceeded`. -/
def markStepAsSucceeded (b : Build) (conditionType : String) (now : Nat) : Build :=
  applyCondition b
    (NewCondition conditionType .conditionTrue
      (successDescriptor conditionType).1 (successDescriptor conditionType).2
      b.generation now) now

/-- `Reconciler.markStepAsFailed`: sets the step condition to False with the
step's failure reason, then sets `Completed` to False with
`ReasonWorkflowFailed`, in the same invocation. -/
def markStepAsFailed (b : Build) (conditionType : String) (now : Nat) : Build :=
  let b1 := applyCondition b
    (NewCondition conditionType .conditionFalse
      (failureDescriptor conditionType).1 (failureDescriptor conditionType).2
      b.generation now) now
  applyCondition b1
    (NewCondition ConditionCompleted .conditionFalse ReasonWorkflowFailed
      "Build completed with a failure status" b.generation now) now

/-! ### Argo workflow outputs -/

/-- An Argo output parameter: `Name string; Value *string`. A `none` value
models a nil `Value` pointer. -/
structure Parameter where
  name : String
  value : Option String
deriving DecidableEq, Repr

/-- `argoproj.Outputs`: the parameter list of the push step's output. -/
structure Outputs where
  parameters : List Parameter
deriving DecidableEq, Repr

/-- The loop body of `getImageNameFromWorkflow` over the parameter list:
returns `*param.Value` of the first parameter named `"image"`, the empty
string when none exists. Dereferencing a nil `Value` pointer is a Go
panic, modelled as `none`. -/
def getImageNameFromWorkflowList : List Parameter → Option String
  | [] => some ""
  | p :: rest =>
    if p.name = "image" then p.value else getImageNameFromWorkflowList rest

/-- `getImageNameFromWorkflow`. -/
def getImageNameFromWorkflow (output : Outputs) : Option String :=
  getImageNameFromWorkflowList output.parameters

/-- `Reconciler.markWorkflowCompleted`: builds the `Completed` condition by
hand (note: its `ObservedGeneration` field is left at the zero value `0`),
flips it to failed when no image name is found, records the image on the
status otherwise, and upserts the condition. A `none` result models the
panic propagated out of `getImageNameFromWorkflow`. -/
def markWorkflowCompleted (b : Build) (argoPushStepOutput : Outputs) (now : Nat) :
    Option Build :=
  match getImageNameFromWorkflow argoPushStepOutput with
  | none => none
  | some image =>
    let newCondition : Condition :=
      { type_ := ConditionCompleted, status := .conditionTrue,
        lastTransitionTime := now, reason := ReasonWorkflowCompleted,
        message := "Build completed successfully.", observedGeneration := 0 }
    if image = "" then
      let failed := { newCondition with
        status := ConditionStatus.conditionFalse,
        reason := ReasonWorkflowFailed,
        message := "Image name is not found in the workflow" }
      some { b with status := { b.status with
        conditions := setStatusCondition b.status.conditions failed now } }
    else
      some { b with status := { b.status with
        imageStatus := { image := image },
        conditions := setStatusCondition b.status.conditions newCondition now } }

/-! ### Argo resource handlers (service account, role binding) -/

/-- Modelled from the spec: the Build Context is the "opaque bundle of
desired-state fields supplied to handlers" (glossary); the namespace and
label derivation helpers (`kubernetes.MakeNamespaceName`,
`kubernetes.MakeLabels`, excluded collaborators per §1) are pure functions
of it, so the context is modelled as carrying their results. -/
structure BuildContext where
  namespaceName : String
  labels : List (String × String)
deriving DecidableEq, Repr

/-- Modelled from the spec: `kubernetes.MakeNamespaceName`, a pure function
of the build context (§3: "name/namespace are pure functions of the
Logical Entity's build context"). -/
def MakeNamespaceName (builtCtx : BuildContext) : String :=
  builtCtx.namespaceName

/-- Modelled from the spec: `kubernetes.MakeLabels`, a pure function of the
build context producing the labels this core applies. -/
def MakeLabels (builtCtx : BuildContext) : List (String × String) :=
  builtCtx.labels

/-- Modelled from the spec: the managed label keys of the "managed keys"
projection (§4.2: compare "only the subset of labels/annotations this core
applies"). The concrete key set is immaterial to the claims proved here. -/
def managedLabelKeys : List String :=
  ["core.choreo.dev/organization", "core.choreo.dev/project",
   "core.choreo.dev/component", "core.choreo.dev/build", "managed-by"]

/-- Modelled from the spec: `kubernetes.ExtractManagedLabels`
(`internal/controller/build/integrations/kubernetes`, not under `src/`):
the projection of a label map onto the managed keys (§4.2), so that
externally added labels do not cause update flapping. -/
def ExtractManagedLabels (labels : List (String × String)) : List (String × String) :=
  labels.filter (fun kv => managedLabelKeys.contains kv.1)

/-- `corev1.ServiceAccount`, restricted to the fields the handler reads or
writes: object metadata (name, namespace, labels) and the resource
version (concurrency token). -/
structure ServiceAccount where
  name : String
  namespaceName : String
  labels : List (String × String)
  resourceVersion : String
deriving DecidableEq, Repr

/-- `rbacv1.Role`, as fetched (by mistake) by the role-binding handler's
`GetCurrentState`; only its metadata matters here. -/
structure Role where
  name : String
  namespaceName : String
  labels : List (String × String)
  resourceVersion : String
deriving DecidableEq, Repr

/-- `rbacv1.Subject`. -/
structure Subject where
  kind : String
  name : String
  namespaceName : String
deriving DecidableEq, Repr

/-- `rbacv1.RoleRef`. -/
structure RoleRef where
  kind : String
  name : String
  apiGroup : String
deriving DecidableEq, Repr

/-- `rbacv1.RoleBinding`, restricted to the fields the handler touches. -/
structure RoleBinding where
  name : String
  namespaceName : String
  labels : List (String × String)
  subjects : List Subject
  roleRef : RoleRef
  resourceVersion : String
deriving DecidableEq, Repr

/-- The dynamic value stored in the `interface{}` current state. Go
distinguishes a struct value from a pointer to it, and a type assertion
`x.(*T)` succeeds only on a `*T`; the constructors record which Go type
the value carries. -/
inductive StateVal where
  | saValue (sa : ServiceAccount)
  | saPointer (sa : ServiceAccount)
  | roleValue (r : Role)
  | rbValue (rb : RoleBinding)
  | rbPointer (rb : RoleBinding)
deriving DecidableEq, Repr

/-- Outcome of the store `Get` issued inside `GetCurrentState`: the object
was found, it was not found (`apierrors.IsNotFound`), or another retrieval
error occurred. -/
inductive GetOutcome (α : Type) where
  | found (obj : α)
  | notFound
  | otherError (e : String)
deriving DecidableEq, Repr

/-- Result of a handler's `Update`: the failed type assertion's error, a
write persisted to the store carrying the new object, or the nil-error
no-op. -/
inductive UpdateResult (α : Type) where
  | castError (msg : String)
  | storeWrite (obj : α)
  | noopNil
deriving DecidableEq, Repr

/-- `makeServiceAccountName`. -/
def makeServiceAccountName : String := "workflow-sa"

/-- `makeServiceAccount`: fresh object, empty resource version. -/
def makeServiceAccount (builtCtx : BuildContext) : ServiceAccount :=
  { name := makeServiceAccountName,
    namespaceName := MakeNamespaceName builtCtx,
    labels := MakeLabels builtCtx,
    resourceVersion := "" }

/-- `serviceAccountHandler.GetCurrentState`: `(nil, nil)` on not-found,
`(nil, err)` on any other failure, and otherwise the fetched
`ServiceAccount` — returned as a struct value, not a pointer. -/
def serviceAccountGetCurrentState (get : GetOutcome ServiceAccount) :
    Option StateVal × Option String :=
  match get with
  | .notFound => (none, none)
  | .otherError e => (none, some e)
  | .found sa => (some (.saValue sa), none)

/-- `serviceAccountHandler.shouldUpdate`: managed-label projections differ. -/
def serviceAccountShouldUpdate (current new : ServiceAccount) : Bool :=
  !(ExtractManagedLabels current.labels == ExtractManagedLabels new.labels)

/-- `serviceAccountHandler.Update`: type-asserts the current state to
`*corev1.ServiceAccount` (only a pointer value satisfies it), then writes
the desired object (carrying over the resource version) exactly when
`shouldUpdate` flags divergence. -/
def serviceAccountUpdate (builtCtx : BuildContext) (currentState : Option StateVal) :
    UpdateResult ServiceAccount :=
  match currentState with
  | some (.saPointer currentSA) =>
    let newSA := makeServiceAccount builtCtx
    if serviceAccountShouldUpdate currentSA newSA then
      .storeWrite { newSA with resourceVersion := currentSA.resourceVersion }
    else
      .noopNil
  | _ => .castError "failed to cast current state to ServiceAccount"

/-- `makeRoleBindingName`. -/
def makeRoleBindingName : String := "workflow-role-binding"

/-- Modelled from the spec: `makeRoleName` (defined alongside the role
handler, not under `src/`): a constant name, a pure function of nothing,
analogous to `makeRoleBindingName`. -/
def makeRoleName : String := "workflow-role"

/-- `makeRoleBinding`. -/
def makeRoleBinding (builtCtx : BuildContext) : RoleBinding :=
  { name := makeRoleBindingName,
    namespaceName := MakeNamespaceName builtCtx,
    labels := [],
    subjects := [{ kind := "ServiceAccount", name := makeServiceAccountName,
                   namespaceName := MakeNamespaceName builtCtx }],
    roleRef := { kind := "Role", name := makeRoleName,
                 apiGroup := "rbac.authorization.k8s.io" },
    resourceVersion := "" }

/-- `roleBindingHandler.GetCurrentState`: fetches an `rbacv1.Role` (not a
RoleBinding) under the role-binding name; `(nil, nil)` on not-found,
`(nil, err)` on any other failure, the fetched `Role` value otherwise. -/
def roleBindingGetCurrentState (get : GetOutcome Role) :
    Option StateVal × Option String :=
  match get with
  | .notFound => (none, none)
  | .otherError e => (none, some e)
  | .found role => (some (.roleValue role), none)

/-- `roleBindingHandler.shouldUpdate`: managed labels, subjects and role
reference are compared in turn (`cmpopts.EquateEmpty` makes a nil and an
empty slice equal, which coincide in the list model). -/
def roleBindingShouldUpdate (current new : RoleBinding) : Bool :=
  if !(ExtractManagedLabels current.labels == ExtractManagedLabels new.labels) then
    true
  else if !(current.subjects == new.subjects) then
    true
  else if !(current.roleRef == new.roleRef) then
    true
  else
    false

/-- `roleBindingHandler.Update`: type-asserts the current state to
`*rbacv1.RoleBinding`, then writes the desired object (carrying over the
resource version) exactly when `shouldUpdate` flags divergence. -/
def roleBindingUpdate (builtCtx : BuildContext) (currentState : Option StateVal) :
    UpdateResult RoleBinding :=
  match currentState with
  | some (.rbPointer currentRB) =>
    let newRB := makeRoleBinding builtCtx
    if roleBindingShouldUpdate currentRB newRB then
      .storeWrite { newRB with resourceVersion := currentRB.resourceVersion }
    else
      .noopNil
  | _ => .castError "failed to cast current state to Role Binding"

/-! ### Derived predicates and concrete scenarios -/

/-- The conditions list of `after` still has at most one condition per type,
and every type stored in `before` is still stored in `after`. -/
def preservesConditionTypes (before after : Build) : Prop :=
  (typesOf after.status.conditions).Nodup ∧
    ∀ ty ∈ typesOf before.status.conditions, ty ∈ typesOf after.status.conditions

/-- A build that already stores two conditions of distinct types, used to
instantiate universally quantified theorems. -/
def demoBuild : Build where
  generation := 2
  status :=
    { conditions :=
        [{ type_ := "Initialized", status := ConditionStatus.conditionTrue,
           reason := "WorkflowCreated", message := "m", observedGeneration := 2,
           lastTransitionTime := 1 },
         { type_ := "CloneSucceeded", status := ConditionStatus.conditionTrue,
           reason := "CloneSourceCodeSucceeded", message := "m", observedGeneration := 2,
           lastTransitionTime := 2 }]
      imageStatus := { image := "" } }

/-- The end-to-end scenario of the spec's §8: entity generation 3, steps
Clone, Build and Push all succeed, final output contains `image=foo:1`. -/
def scenarioStart : Build where
  generation := 3
  status := { conditions := [], imageStatus := { image := "" } }

/-- The push-step output `{image: "foo:1"}` of the scenario. -/
def scenarioOutput : Outputs where
  parameters := [{ name := "image", value := some "foo:1" }]

/-- The scenario build after Initialized is set and the three steps are
marked succeeded (at times 1 through 4). -/
def scenarioAfterSteps : Build :=
  markStepAsSucceeded
    (markStepAsSucceeded
      (markStepAsSucceeded
        (applyCondition scenarioStart
          (NewWorkflowInitializedCondition scenarioStart.generation 1) 1)
        ConditionCloneSucceeded 2)
      ConditionBuildSucceeded 3)
    ConditionPushSucceeded 4

/-- The scenario build after `markWorkflowCompleted` (at time 5). -/
def scenarioFinal : Build :=
  (markWorkflowCompleted scenarioAfterSteps scenarioOutput 5).getD scenarioAfterSteps

/-! ### Lemmas about the condition upsert -/

theorem resolveNewCondition_type (c : Condition) (now : Nat) :
    (resolveNewCondition c now).type_ = c.type_ := by
  unfold resolveNewCondition; split <;> rfl

theorem updateExistingCondition_type (e c : Condition) (now : Nat) :
    (updateExistingCondition e c now).type_ = e.type_ := rfl

theorem resolveNewCondition_status (c : Condition) (now : Nat) :
    (resolveNewCondition c now).status = c.status := by
  unfold resolveNewCondition; split <;> rfl

theorem resolveNewCondition_reason (c : Condition) (now : Nat) :
    (resolveNewCondition c now).reason = c.reason := by
  unfold resolveNewCondition; split <;> rfl

theorem resolveNewCondition_message (c : Condition) (now : Nat) :
    (resolveNewCondition c now).message = c.message := by
  unfold resolveNewCondition; split <;> rfl

theorem resolveNewCondition_observedGeneration (c : Condition) (now : Nat) :
    (resolveNewCondition c now).observedGeneration = c.observedGeneration := by
  unfold resolveNewCondition; split <;> rfl

theorem setResult_status (L : List Condition) (c : Condition) (now : Nat) :
    (setResult L c now).status = c.status := by
  cases h : findStatusCondition L c.type_ <;>
    simp [setResult, h, resolveNewCondition_status, updateExistingCondition]

theorem setResult_reason (L : List Condition) (c : Condition) (now : Nat) :
    (setResult L c now).reason = c.reason := by
  cases h : findStatusCondition L c.type_ <;>
    simp [setResult, h, resolveNewCondition_reason, updateExistingCondition]

theorem setResult_message (L : List Condition) (c : Condition) (now : Nat) :
    (setResult L c now).message = c.message := by
  cases h : findStatusCondition L c.type_ <;>
    simp [setResult, h, resolveNewCondition_message, updateExistingCondition]

theorem setResult_observedGeneration (L : List Condition) (c : Condition) (now : Nat) :
    (setResult L c now).observedGeneration = c.observedGeneration := by
  cases h : findStatusCondition L c.type_ <;>
    simp [setResult, h, resolveNewCondition_observedGeneration, updateExistingCondition]

/-- After an upsert, looking up the upserted type finds exactly the stored
condition `setResult`. -/
theorem find_set_self (L : List Condition) (c : Condition) (now : Nat) :
    findStatusCondition (setStatusCondition L c now) c.type_ = some (setResult L c now) := by
  induction L with
  | nil =>
    simp [setStatusCondition, setResult, findStatusCondition, resolveNewCondition_type]
  | cons c' rest ih =>
    by_cases h : c'.type_ = c.type_
    · simp [setStatusCondition, h, findStatusCondition, setResult,
        updateExistingCondition_type]
    · simp [setStatusCondition, h, findStatusCondition, setResult, ih]

/-- An upsert leaves lookups of every other type untouched. -/
theorem find_set_ne (L : List Condition) (c : Condition) (now : Nat) (ty : String)
    (hne : ty ≠ c.type_) :
    findStatusCondition (setStatusCondition L c now) ty = findStatusCondition L ty := by
  induction L with
  | nil =>
    simp [setStatusCondition, findStatusCondition, resolveNewCondition_type, Ne.symm hne]
  | cons c' rest ih =>
    by_cases h : c'.type_ = c.type_
    · have h2 : c'.type_ ≠ ty := by rw [h]; exact Ne.symm hne
      simp [setStatusCondition, h, findStatusCondition, updateExistingCondition_type, h2,
        Ne.symm hne]
    · by_cases h3 : c'.type_ = ty
      · simp [setStatusCondition, h, findStatusCondition, h3, hne]
      · simp [setStatusCondition, h, findStatusCondition, h3, ih, hne]

/-- An upsert overwrites by type: the stored types are unchanged when the
type is already present, and gain exactly the new type otherwise. -/
theorem typesOf_set (L : List Condition) (c : Condition) (now : Nat) :
    typesOf (setStatusCondition L c now) =
      if c.type_ ∈ typesOf L then typesOf L else typesOf L ++ [c.type_] := by
  induction L with
  | nil => simp [setStatusCondition, typesOf, resolveNewCondition_type]
  | cons c' rest ih =>
    by_cases h : c'.type_ = c.type_
    · simp [setStatusCondition, h, typesOf, updateExistingCondition_type]
    · have h' : c.type_ ≠ c'.type_ := fun hh => h hh.symm
      have e1 : setStatusCondition (c' :: rest) c now = c' :: setStatusCondition rest c now := by
        simp [setStatusCondition, h]
      have e2 : typesOf (c' :: setStatusCondition rest c now)
          = c'.type_ :: typesOf (setStatusCondition rest c now) := rfl
      have e3 : typesOf (c' :: rest) = c'.type_ :: typesOf rest := rfl
      rw [e1, e2, ih, e3]
      by_cases hm : c.type_ ∈ typesOf rest
      · rw [if_pos hm, if_pos (List.mem_cons_of_mem _ hm)]
      · rw [if_neg hm, if_neg (by simp [List.mem_cons, h', hm]), List.cons_append]

/-- An upsert preserves type uniqueness. -/
theorem typesOf_set_nodup (L : List Condition) (c : Condition) (now : Nat)
    (h : (typesOf L).Nodup) : (typesOf (setStatusCondition L c now)).Nodup := by
  rw [typesOf_set]
  split
  · exact h
  · next hmem => simp [List.nodup_append, h, hmem]

/-- An upsert never removes a stored type. -/
theorem typesOf_set_superset (L : List Condition) (c : Condition) (now : Nat) :
    ∀ ty ∈ typesOf L, ty ∈ typesOf (setStatusCondition L c now) := by
  intro ty hty
  rw [typesOf_set]
  split
  · exact hty
  · exact List.mem_append_left _ hty

/-- Lookup after upsert, projected to status and reason. -/
theorem find_set_self_map (L : List Condition) (c : Condition) (now : Nat) :
    (findStatusCondition (setStatusCondition L c now) c.type_).map
      (fun d => (d.status, d.reason)) = some (c.status, c.reason) := by
  rw [find_set_self]
  simp [setResult_status, setResult_reason]

/-! ### Lemmas about image extraction -/

/-- When parameter names are unique (the Pipeline Output is a mapping), the
parameter named `"image"` in the list is the one the extraction loop hits. -/
theorem getImage_of_mem_nodup (ps : List Parameter) (v : Option String)
    (hnodup : (ps.map Parameter.name).Nodup)
    (hmem : ({ name := "image", value := v } : Parameter) ∈ ps) :
    getImageNameFromWorkflowList ps = v := by
  induction ps with
  | nil => cases hmem
  | cons p rest ih =>
    rcases List.mem_cons.mp hmem with h | hmem'
    · rw [← h]
      simp [getImageNameFromWorkflowList]
    · by_cases h : p.name = "image"
      · exfalso
        have himg : "image" ∈ rest.map Parameter.name :=
          List.mem_map.mpr ⟨{ name := "image", value := v }, hmem', rfl⟩
        rw [← h] at himg
        exact (List.nodup_cons.mp hnodup).1 himg
      · simp only [getImageNameFromWorkflowList, if_neg h]
        exact ih (List.nodup_cons.mp hnodup).2 hmem'

/-- With no parameter named `"image"`, the loop falls through and returns
the empty string. -/
theorem getImage_of_no_image (ps : List Parameter)
    (h : ∀ p ∈ ps, p.name ≠ "image") :
    getImageNameFromWorkflowList ps = some "" := by
  induction ps with
  | nil => rfl
  | cons p rest ih =>
    simp only [getImageNameFromWorkflowList, if_neg (h p (List.mem_cons_self p rest))]
    exact ih fun q hq => h q (List.mem_cons_of_mem _ hq)

/-! ### Claim theorems -/

/-- Claim C1: for every build status and every push-step output whose
parameter list (a mapping, so parameter names are unique) contains a
parameter named `"image"` with non-empty value `v`, `markWorkflowCompleted`
terminates normally, sets the `Completed` condition to status True with the
completion reason, and records `v` as the produced artifact reference in
`build.Status.ImageStatus.Image`. -/
theorem markWorkflowCompleted_records_image (b : Build) (out : Outputs) (v : String)
    (now : Nat)
    (hnodup : (out.parameters.map Parameter.name).Nodup)
    (hmem : ({ name := "image", value := some v } : Parameter) ∈ out.parameters)
    (hv : v ≠ "") :
    ∃ b', markWorkflowCompleted b out now = some b' ∧
      b'.status.imageStatus.image = v ∧
      (findStatusCondition b'.status.conditions ConditionCompleted).map
          (fun c => (c.status, c.reason, c.message))
        = some (ConditionStatus.conditionTrue, ReasonWorkflowCompleted,
            "Build completed successfully.") := by
  have himg : getImageNameFromWorkflow out = some v :=
    getImage_of_mem_nodup out.parameters (some v) hnodup hmem
  refine ⟨{ b with status := { b.status with
      imageStatus := { image := v },
      conditions := setStatusCondition b.status.conditions
        { type_ := ConditionCompleted, status := .conditionTrue,
          reason := ReasonWorkflowCompleted,
          message := "Build completed successfully.",
          observedGeneration := 0, lastTransitionTime := now } now } }, ?_, rfl, ?_⟩
  · unfold markWorkflowCompleted at himg ⊢
    rw [himg]
    simp [hv]
  · have hfind := find_set_self b.status.conditions
      { type_ := ConditionCompleted, status := .conditionTrue,
        reason := ReasonWorkflowCompleted,
        message := "Build completed successfully.",
        observedGeneration := 0, lastTransitionTime := now } now
    rw [hfind]
    simp [setResult_status, setResult_reason, setResult_message]

/-- Witness for C1 at the spec's example output
`{"image": "registry/app:sha123"}`. -/
theorem markWorkflowCompleted_records_image_witness :
    ∃ b', markWorkflowCompleted
        { generation := 1, status := { conditions := [], imageStatus := { image := "" } } }
        { parameters := [{ name := "image", value := some "registry/app:sha123" }] }
        7 = some b' ∧
      b'.status.imageStatus.image = "registry/app:sha123" ∧
      (findStatusCondition b'.status.conditions ConditionCompleted).map
          (fun c => (c.status, c.reason, c.message))
        = some (ConditionStatus.conditionTrue, ReasonWorkflowCompleted,
            "Build completed successfully.") :=
  markWorkflowCompleted_records_image
    { generation := 1, status := { conditions := [], imageStatus := { image := "" } } }
    { parameters := [{ name := "image", value := some "registry/app:sha123" }] }
    "registry/app:sha123" 7 (by decide) (by decide) (by decide)

/-- Claim C2, auxiliary: for any step condition type other than `Completed`,
`markStepAsFailed` records the step condition as False with the step's
failure reason and the `Completed` condition as False with
`ReasonWorkflowFailed`, in the same invocation. -/
theorem markStepAsFailed_general (b : Build) (t : String) (now : Nat)
    (hne : t ≠ ConditionCompleted) :
    ((findStatusCondition (markStepAsFailed b t now).status.conditions t).map
        (fun c => (c.status, c.reason))
      = some (ConditionStatus.conditionFalse, (failureDescriptor t).1)) ∧
    ((findStatusCondition (markStepAsFailed b t now).status.conditions
          ConditionCompleted).map (fun c => (c.status, c.reason))
      = some (ConditionStatus.conditionFalse, ReasonWorkflowFailed)) := by
  constructor
  · show (findStatusCondition (setStatusCondition (setStatusCondition b.status.conditions
      (NewCondition t .conditionFalse (failureDescriptor t).1 (failureDescriptor t).2
        b.generation now) now)
      (NewCondition ConditionCompleted .conditionFalse ReasonWorkflowFailed
        "Build completed with a failure status" b.generation now) now) t).map
        (fun c => (c.status, c.reason)) = _
    rw [find_set_ne _ _ _ _ hne]
    exact find_set_self_map b.status.conditions
      (NewCondition t .conditionFalse (failureDescriptor t).1 (failureDescriptor t).2
        b.generation now) now
  · exact find_set_self_map _
      (NewCondition ConditionCompleted .conditionFalse ReasonWorkflowFailed
        "Build completed with a failure status" b.generation now) now

/-- Claim C2: for every build and every failed step among Clone, Build and
Push, `markStepAsFailed` sets the step's condition to status False with
that step's failure reason and, in the same invocation, also sets the
`Completed` condition to status False with `ReasonWorkflowFailed`. -/
theorem markStepAsFailed_marks_step_and_completed (b : Build) (now : Nat) :
    (((findStatusCondition (markStepAsFailed b ConditionCloneSucceeded now).status.conditions
          ConditionCloneSucceeded).map (fun c => (c.status, c.reason))
        = some (ConditionStatus.conditionFalse, ReasonCloneFailed)) ∧
      ((findStatusCondition (markStepAsFailed b ConditionCloneSucceeded now).status.conditions
          ConditionCompleted).map (fun c => (c.status, c.reason))
        = some (ConditionStatus.conditionFalse, ReasonWorkflowFailed))) ∧
    (((findStatusCondition (markStepAsFailed b ConditionBuildSucceeded now).status.conditions
          ConditionBuildSucceeded).map (fun c => (c.status, c.reason))
        = some (ConditionStatus.conditionFalse, ReasonBuildFailed)) ∧
      ((findStatusCondition (markStepAsFailed b ConditionBuildSucceeded now).status.conditions
          ConditionCompleted).map (fun c => (c.status, c.reason))
        = some (ConditionStatus.conditionFalse, ReasonWorkflowFailed))) ∧
    (((findStatusCondition (markStepAsFailed b ConditionPushSucceeded now).status.conditions
          ConditionPushSucceeded).map (fun c => (c.status, c.reason))
        = some (ConditionStatus.conditionFalse, ReasonPushFailed)) ∧
      ((findStatusCondition (markStepAsFailed b ConditionPushSucceeded now).status.conditions
          ConditionCompleted).map (fun c => (c.status, c.reason))
        = some (ConditionStatus.conditionFalse, ReasonWorkflowFailed))) := by
  refine ⟨?_, ?_, ?_⟩
  · exact markStepAsFailed_general b ConditionCloneSucceeded now (by decide)
  · exact markStepAsFailed_general b ConditionBuildSucceeded now (by decide)
  · exact markStepAsFailed_general b ConditionPushSucceeded now (by decide)

/-- Claim C3: for every push-step output containing no parameter named
`"image"`, or whose (unique) `"image"` parameter carries the empty string,
`markWorkflowCompleted` terminates normally — the outcome is recorded on
the status, not returned or raised as an error — and sets the `Completed`
condition to status False with `ReasonWorkflowFailed` and the message that
the image name was not found. -/
theorem markWorkflowCompleted_missing_image (b : Build) (out : Outputs) (now : Nat)
    (h : (∀ p ∈ out.parameters, p.name ≠ "image") ∨
      ((out.parameters.map Parameter.name).Nodup ∧
        ({ name := "image", value := some "" } : Parameter) ∈ out.parameters)) :
    ∃ b', markWorkflowCompleted b out now = some b' ∧
      b'.status.imageStatus = b.status.imageStatus ∧
      (findStatusCondition b'.status.conditions ConditionCompleted).map
          (fun c => (c.status, c.reason, c.message))
        = some (ConditionStatus.conditionFalse, ReasonWorkflowFailed,
            "Image name is not found in the workflow") := by
  have himg : getImageNameFromWorkflow out = some "" := by
    rcases h with h | ⟨hnodup, hmem⟩
    · exact getImage_of_no_image out.parameters h
    · exact getImage_of_mem_nodup out.parameters (some "") hnodup hmem
  refine ⟨{ b with status := { b.status with
      conditions := setStatusCondition b.status.conditions
        { type_ := ConditionCompleted, status := .conditionFalse,
          reason := ReasonWorkflowFailed,
          message := "Image name is not found in the workflow",
          observedGeneration := 0, lastTransitionTime := now } now } }, ?_, rfl, ?_⟩
  · unfold markWorkflowCompleted at himg ⊢
    rw [himg]
    simp
  · have hfind := find_set_self b.status.conditions
      { type_ := ConditionCompleted, status := .conditionFalse,
        reason := ReasonWorkflowFailed,
        message := "Image name is not found in the workflow",
        observedGeneration := 0, lastTransitionTime := now } now
    rw [hfind]
    simp [setResult_status, setResult_reason, setResult_message]

/-- Witness for C3 at an output with no `"image"` entry. -/
theorem markWorkflowCompleted_missing_image_witness :
    ∃ b', markWorkflowCompleted
        { generation := 2, status := { conditions := [], imageStatus := { image := "" } } }
        { parameters := [{ name := "tag", value := some "v1" }] } 3 = some b' ∧
      b'.status.imageStatus =
        ({ conditions := [], imageStatus := { image := "" } } : BuildStatus).imageStatus ∧
      (findStatusCondition b'.status.conditions ConditionCompleted).map
          (fun c => (c.status, c.reason, c.message))
        = some (ConditionStatus.conditionFalse, ReasonWorkflowFailed,
            "Image name is not found in the workflow") :=
  markWorkflowCompleted_missing_image
    { generation := 2, status := { conditions := [], imageStatus := { image := "" } } }
    { parameters := [{ name := "tag", value := some "v1" }] } 3
    (Or.inl (by decide))

/-- Claim C6: for every conditions list and every condition type, upserting
twice where the second call carries the same status value as the stored
condition leaves that condition's `lastTransitionTime` unchanged, while its
reason and message are replaced by the newer call's values. -/
theorem setCondition_same_status_keeps_transition_time
    (L : List Condition) (c1 c2 : Condition) (t1 t2 : Nat)
    (hty : c2.type_ = c1.type_) (hst : c2.status = c1.status) :
    (findStatusCondition (setStatusCondition (setStatusCondition L c1 t1) c2 t2)
        c2.type_).map (fun d => (d.lastTransitionTime, d.reason, d.message))
      = (findStatusCondition (setStatusCondition L c1 t1) c2.type_).map
        (fun d => (d.lastTransitionTime, c2.reason, c2.message)) := by
  have hfind1 : findStatusCondition (setStatusCondition L c1 t1) c2.type_
      = some (setResult L c1 t1) := by
    rw [hty]; exact find_set_self L c1 t1
  have hfind2 : findStatusCondition
      (setStatusCondition (setStatusCondition L c1 t1) c2 t2) c2.type_
      = some (setResult (setStatusCondition L c1 t1) c2 t2) :=
    find_set_self _ c2 t2
  have hres : setResult (setStatusCondition L c1 t1) c2 t2
      = updateExistingCondition (setResult L c1 t1) c2 t2 := by
    simp [setResult, hfind1]
  have hstat : (setResult L c1 t1).status = c2.status := by
    rw [setResult_status, hst]
  rw [hfind1, hfind2, hres]
  simp [updateExistingCondition, hstat]

/-- Witness for C6: a repeated upsert of the same type and status with new
reason and message. -/
theorem setCondition_same_status_keeps_transition_time_witness :
    (findStatusCondition (setStatusCondition (setStatusCondition []
        { type_ := "Completed", status := ConditionStatus.conditionTrue,
          reason := "r1", message := "m1", observedGeneration := 1,
          lastTransitionTime := 4 } 4)
        { type_ := "Completed", status := ConditionStatus.conditionTrue,
          reason := "r2", message := "m2", observedGeneration := 2,
          lastTransitionTime := 9 } 9)
        "Completed").map (fun d => (d.lastTransitionTime, d.reason, d.message))
      = (findStatusCondition (setStatusCondition []
        { type_ := "Completed", status := ConditionStatus.conditionTrue,
          reason := "r1", message := "m1", observedGeneration := 1,
          lastTransitionTime := 4 } 4)
        "Completed").map (fun d => (d.lastTransitionTime, "r2", "m2")) :=
  setCondition_same_status_keeps_transition_time []
    { type_ := "Completed", status := ConditionStatus.conditionTrue,
      reason := "r1", message := "m1", observedGeneration := 1,
      lastTransitionTime := 4 }
    { type_ := "Completed", status := ConditionStatus.conditionTrue,
      reason := "r2", message := "m2", observedGeneration := 2,
      lastTransitionTime := 9 } 4 9 rfl rfl

/-- A single upsert on the build preserves type uniqueness and removes no
condition. -/
theorem applyCondition_preservesConditionTypes (b : Build) (c : Condition) (now : Nat)
    (h : (typesOf b.status.conditions).Nodup) :
    preservesConditionTypes b (applyCondition b c now) :=
  ⟨typesOf_set_nodup _ c now h, typesOf_set_superset _ c now⟩

theorem preservesConditionTypes_trans (a b c : Build)
    (h1 : preservesConditionTypes a b) (h2 : preservesConditionTypes b c) :
    preservesConditionTypes a c :=
  ⟨h2.1, fun ty hty => h2.2 ty (h1.2 ty hty)⟩

/-- Claim C7: every condition-writing operation of the pipeline status
controller — setting the Initialized condition, marking a step succeeded or
failed, marking the workflow completed, and setting the deployable-artifact
and auto-deployment conditions — preserves the invariant that the build
status's conditions list holds at most one condition per type, and never
removes an existing condition (it only overwrites by type). -/
theorem conditionOps_preserve_uniqueness (b : Build) (g : Int) (stepType : String)
    (out : Outputs) (n1 n2 n3 n4 n5 n6 n7 : Nat)
    (hnodup : (typesOf b.status.conditions).Nodup) :
    preservesConditionTypes b (applyCondition b (NewWorkflowInitializedCondition g n1) n1) ∧
    preservesConditionTypes b (markStepAsSucceeded b stepType n2) ∧
    preservesConditionTypes b (markStepAsFailed b stepType n3) ∧
    preservesConditionTypes b ((markWorkflowCompleted b out n4).getD b) ∧
    preservesConditionTypes b
      (applyCondition b (NewDeployableArtifactCreatedCondition g n5) n5) ∧
    preservesConditionTypes b (applyCondition b (NewAutoDeploymentFailedCondition g n6) n6) ∧
    preservesConditionTypes b
      (applyCondition b (NewAutoDeploymentSuccessfulCondition g n7) n7) := by
  refine ⟨applyCondition_preservesConditionTypes b _ n1 hnodup,
    applyCondition_preservesConditionTypes b _ n2 hnodup, ?_, ?_,
    applyCondition_preservesConditionTypes b _ n5 hnodup,
    applyCondition_preservesConditionTypes b _ n6 hnodup,
    applyCondition_preservesConditionTypes b _ n7 hnodup⟩
  · have h1 := applyCondition_preservesConditionTypes b
      (NewCondition stepType .conditionFalse (failureDescriptor stepType).1
        (failureDescriptor stepType).2 b.generation n3) n3 hnodup
    have h2 := applyCondition_preservesConditionTypes
      (applyCondition b (NewCondition stepType .conditionFalse
        (failureDescriptor stepType).1 (failureDescriptor stepType).2 b.generation n3) n3)
      (NewCondition ConditionCompleted .conditionFalse ReasonWorkflowFailed
        "Build completed with a failure status" b.generation n3) n3 h1.1
    exact preservesConditionTypes_trans _ _ _ h1 h2
  · cases himg : getImageNameFromWorkflow out with
    | none =>
      simp only [markWorkflowCompleted, himg, Option.getD]
      exact ⟨hnodup, fun ty hty => hty⟩
    | some image =>
      by_cases hempty : image = ""
      · have : markWorkflowCompleted b out n4 = some { b with status := { b.status with
            conditions := setStatusCondition b.status.conditions
              { type_ := ConditionCompleted, status := .conditionFalse,
                reason := ReasonWorkflowFailed,
                message := "Image name is not found in the workflow",
                observedGeneration := 0, lastTransitionTime := n4 } n4 } } := by
          unfold markWorkflowCompleted
          rw [himg]
          simp [hempty]
        rw [this]
        exact ⟨typesOf_set_nodup _ _ n4 hnodup, typesOf_set_superset _ _ n4⟩
      · have : markWorkflowCompleted b out n4 = some { b with status := { b.status with
            imageStatus := { image := image },
            conditions := setStatusCondition b.status.conditions
              { type_ := ConditionCompleted, status := .conditionTrue,
                reason := ReasonWorkflowCompleted,
                message := "Build completed successfully.",
                observedGeneration := 0, lastTransitionTime := n4 } n4 } } := by
          unfold markWorkflowCompleted
          rw [himg]
          simp [hempty]
        rw [this]
        exact ⟨typesOf_set_nodup _ _ n4 hnodup, typesOf_set_superset _ _ n4⟩

/-- Witness for C7: marking the Build step failed on a build that already
stores Initialized and CloneSucceeded conditions. -/
theorem conditionOps_preserve_uniqueness_witness :
    preservesConditionTypes demoBuild (markStepAsFailed demoBuild ConditionBuildSucceeded 3) :=
  (conditionOps_preserve_uniqueness demoBuild 2 ConditionBuildSucceeded
    { parameters := [] } 1 2 3 4 5 6 7 (by decide)).2.2.1

/-- Claim C4 (divergence evidence): in the end-to-end scenario with
generation 3 — Initialized set, Clone, Build and Push marked succeeded,
`markWorkflowCompleted` run on output `image=foo:1` — the Initialized,
CloneSucceeded, BuildSucceeded and PushSucceeded conditions are all True
with observedGeneration 3 and the image is recorded, but the `Completed`
condition, although True, carries observedGeneration 0: the condition
literal built inside `markWorkflowCompleted` omits the ObservedGeneration
field, so the zero value is stored instead of the build's generation. -/
theorem scenario_completed_generation_zero :
    markWorkflowCompleted scenarioAfterSteps scenarioOutput 5 = some scenarioFinal ∧
    scenarioFinal.status.imageStatus.image = "foo:1" ∧
    (findStatusCondition scenarioFinal.status.conditions ConditionInitialized).map
        (fun c => (c.status, c.observedGeneration))
      = some (ConditionStatus.conditionTrue, 3) ∧
    (findStatusCondition scenarioFinal.status.conditions ConditionCloneSucceeded).map
        (fun c => (c.status, c.observedGeneration))
      = some (ConditionStatus.conditionTrue, 3) ∧
    (findStatusCondition scenarioFinal.status.conditions ConditionBuildSucceeded).map
        (fun c => (c.status, c.observedGeneration))
      = some (ConditionStatus.conditionTrue, 3) ∧
    (findStatusCondition scenarioFinal.status.conditions ConditionPushSucceeded).map
        (fun c => (c.status, c.observedGeneration))
      = some (ConditionStatus.conditionTrue, 3) ∧
    (findStatusCondition scenarioFinal.status.conditions ConditionCompleted).map
        (fun c => (c.status, c.observedGeneration))
      = some (ConditionStatus.conditionTrue, 0) := by
  decide

/-- Claim C5 (divergence evidence): the current state the handlers fetch is
returned as a struct value (for the role-binding handler, even an
`rbacv1.Role` rather than a RoleBinding), while `Update` type-asserts a
pointer type; hence, for every current state previously returned by the
same handler's `GetCurrentState` for a present object, `Update` returns
the cast error instead of consulting `shouldUpdate`. -/
theorem update_rejects_fetched_current_state (builtCtx : BuildContext)
    (sa : ServiceAccount) (r : Role) :
    serviceAccountGetCurrentState (.found sa) = (some (.saValue sa), none) ∧
    serviceAccountUpdate builtCtx (some (.saValue sa)) =
      .castError "failed to cast current state to ServiceAccount" ∧
    roleBindingGetCurrentState (.found r) = (some (.roleValue r), none) ∧
    roleBindingUpdate builtCtx (some (.roleValue r)) =
      .castError "failed to cast current state to Role Binding" :=
  ⟨rfl, rfl, rfl, rfl⟩

/-- Claim C8: for both handlers, `GetCurrentState` returns `(nil, nil)`
when the store `Get` reports not-found — an absent object is not an
error — and `(nil, err)` with the underlying error for every other
retrieval failure. -/
theorem getCurrentState_not_found_not_error (e : String) :
    serviceAccountGetCurrentState .notFound = (none, none) ∧
    serviceAccountGetCurrentState (.otherError e) = (none, some e) ∧
    roleBindingGetCurrentState .notFound = (none, none) ∧
    roleBindingGetCurrentState (.otherError e) = (none, some e) :=
  ⟨rfl, rfl, rfl, rfl⟩

/-- Claim C9: for both handlers' diff policies, comparing an object against
itself never flags an update: `shouldUpdate(d, d) = false`. -/
theorem shouldUpdate_refl (sa : ServiceAccount) (rb : RoleBinding) :
    serviceAccountShouldUpdate sa sa = false ∧
    roleBindingShouldUpdate rb rb = false := by
  constructor
  · simp [serviceAccountShouldUpdate]
  · simp [roleBindingShouldUpdate]

/-- Claim C10 (counterexample): on a parameter list containing a parameter
named `"image"` whose Value pointer is nil, `getImageNameFromWorkflow`
dereferences the nil pointer — a panic, modelled as `none` — rather than
terminating normally with a string. -/
theorem getImage_nil_value_panics :
    getImageNameFromWorkflow
      { parameters := [{ name := "image", value := none }] } = none :=
  rfl

/-- Auxiliary for C10: the extraction loop over a parameter list whose
`"image"` parameters all carry non-nil values returns, without a panic,
the first `"image"` parameter's value, or the empty string when none
exists. -/
theorem getImageList_total_of_nonnil (ps : List Parameter)
    (h : ∀ p ∈ ps, p.name = "image" → p.value.isSome) :
    getImageNameFromWorkflowList ps =
      some (((ps.find? (fun q => q.name == "image")).bind Parameter.value).getD "") := by
  induction ps with
  | nil => rfl
  | cons p rest ih =>
    by_cases hp : p.name = "image"
    · have hsome := h p (List.mem_cons_self p rest) hp
      obtain ⟨v, hv⟩ := Option.isSome_iff_exists.mp hsome
      have hfind : (p :: rest).find? (fun q => q.name == "image") = some p :=
        List.find?_cons_of_pos _ (by simp [hp])
      simp [getImageNameFromWorkflowList, hp, hv, hfind]
    · have hfind : (p :: rest).find? (fun q => q.name == "image")
          = rest.find? (fun q => q.name == "image") :=
        List.find?_cons_of_neg _ (by simp [hp])
      simp only [getImageNameFromWorkflowList, if_neg hp, hfind]
      exact ih fun q hq hqi => h q (List.mem_cons_of_mem _ hq) hqi

/-- Claim C10 (amended): for every Outputs value in which every parameter
named `"image"` has a non-nil Value pointer, `getImageNameFromWorkflow`
terminates normally, returning the first `"image"` parameter's value when
one exists and the empty string otherwise. -/
theorem getImageNameFromWorkflow_total_of_nonnil (out : Outputs)
    (h : ∀ p ∈ out.parameters, p.name = "image" → p.value.isSome) :
    getImageNameFromWorkflow out =
      some (((out.parameters.find? (fun q => q.name == "image")).bind
        Parameter.value).getD "") :=
  getImageList_total_of_nonnil out.parameters h

/-- Witness for the amended C10 at a two-parameter output. -/
theorem getImageNameFromWorkflow_total_of_nonnil_witness :
    getImageNameFromWorkflow
        { parameters := [{ name := "tag", value := none },
                         { name := "image", value := some "registry/app:1" }] } =
      some ((((
        [({ name := "tag", value := none } : Parameter),
         { name := "image", value := some "registry/app:1" }]).find?
          (fun q => q.name == "image")).bind Parameter.value).getD "") :=
  getImageNameFromWorkflow_total_of_nonnil
    { parameters := [{ name := "tag", value := none },
                     { name := "image", value := some "registry/app:1" }] }
    (by decide)

end Choreo
